import Mathlib

/-!
Verification development for the video-upload analysis pipeline of the
fu-scammers repository.  The definitions below are shallow embeddings of the
TypeScript sources (file and line references in each doc comment); theorems
settle the frozen claims about the natural-language specification.
-/

set_option maxRecDepth 4000

/-! ## JSON value model and a parser mirroring JavaScript `JSON.parse` -/

/-- JSON values as produced by `JSON.parse`: null, booleans, numbers
(modelled as rationals; JSON numbers are finite decimals with exponents),
strings, arrays, and objects (ordered field lists, duplicates possible). -/
inductive Json where
  | null : Json
  | bool (b : Bool) : Json
  | num (v : ℚ) : Json
  | str (s : List Char) : Json
  | arr (elems : List Json) : Json
  | obj (fields : List (List Char × Json)) : Json

/-- The four JSON whitespace characters accepted between tokens. -/
def jsonWs (c : Char) : Bool :=
  c == ' ' || c == '\t' || c == '\n' || c == '\r'

/-- Skip JSON whitespace. -/
def skipWs (cs : List Char) : List Char := cs.dropWhile jsonWs

/-- Decimal digit run to a natural number; the empty run gives 0. -/
def digitsToNat (ds : List Char) : Nat :=
  ds.foldl (fun n c => n * 10 + (c.toNat - 48)) 0

/-- One hexadecimal digit, for `\uXXXX` escapes. -/
def hexVal (c : Char) : Option Nat :=
  if c.isDigit then some (c.toNat - 48)
  else if 'a' ≤ c ∧ c ≤ 'f' then some (c.toNat - 87)
  else if 'A' ≤ c ∧ c ≤ 'F' then some (c.toNat - 55)
  else none

/-- Fractional part of a JSON number: `.digits` (digits mandatory after the
dot), or nothing.  Returns (fraction digits value, fraction length, rest). -/
def parseFracPart (cs : List Char) : Option (Nat × Nat × List Char) :=
  match cs with
  | '.' :: r =>
    let fd := r.takeWhile Char.isDigit
    if fd.isEmpty then none else some (digitsToNat fd, fd.length, r.drop fd.length)
  | _ => some (0, 0, cs)

/-- Exponent part of a JSON number: `[eE][+-]?digits`, or nothing.
Returns (exponent negative?, exponent value, rest). -/
def parseExpPart (cs : List Char) : Option (Bool × Nat × List Char) :=
  match cs with
  | c :: r =>
    if c == 'e' || c == 'E' then
      let signRest : Bool × List Char :=
        match r with
        | '+' :: rr => (false, rr)
        | '-' :: rr => (true, rr)
        | _ => (false, r)
      let ed := signRest.2.takeWhile Char.isDigit
      if ed.isEmpty then none
      else some (signRest.1, digitsToNat ed, signRest.2.drop ed.length)
    else some (false, 0, c :: r)
  | [] => some (false, 0, [])

/-- Assemble a JSON number from sign, integer part, fraction and exponent
(built from core rational-number operations so that concrete parses reduce
inside the kernel). -/
def assembleNum (neg : Bool) (ip : Nat) (fv fl : Nat) (en : Bool) (ev : Nat) : ℚ :=
  let mantNat : Nat := ip * 10 ^ fl + fv
  let mant : Int := if neg then -(mantNat : Int) else (mantNat : Int)
  if en then mkRat mant (10 ^ (fl + ev))
  else mkRat (mant * ((10 ^ ev : Nat) : Int)) (10 ^ fl)

/-- JSON number grammar `-?(0|[1-9][0-9]*)(\.[0-9]+)?([eE][+-]?[0-9]+)?`,
returning the value and the remaining input. -/
def parseNumChars (cs : List Char) : Option (ℚ × List Char) :=
  let signSplit : Bool × List Char :=
    match cs with
    | '-' :: r => (true, r)
    | _ => (false, cs)
  match signSplit.2 with
  | '0' :: r =>
    match parseFracPart r with
    | none => none
    | some (fv, fl, r1) =>
      match parseExpPart r1 with
      | none => none
      | some (en, ev, r2) => some (assembleNum signSplit.1 0 fv fl en ev, r2)
  | c :: r =>
    if c.isDigit && c != '0' then
      let ds := (c :: r).takeWhile Char.isDigit
      match parseFracPart ((c :: r).drop ds.length) with
      | none => none
      | some (fv, fl, r1) =>
        match parseExpPart r1 with
        | none => none
        | some (en, ev, r2) => some (assembleNum signSplit.1 (digitsToNat ds) fv fl en ev, r2)
    else none
  | [] => none

mutual

/-- Recursive-descent JSON value parser (fuel-indexed for termination).
Mirrors `JSON.parse`: literals, strings, numbers, arrays, objects. -/
def parseJsonVal : Nat → List Char → Option (Json × List Char)
  | 0, _ => none
  | Nat.succ fuel, cs =>
    match skipWs cs with
    | 'n' :: 'u' :: 'l' :: 'l' :: rest => some (Json.null, rest)
    | 't' :: 'r' :: 'u' :: 'e' :: rest => some (Json.bool true, rest)
    | 'f' :: 'a' :: 'l' :: 's' :: 'e' :: rest => some (Json.bool false, rest)
    | '\x22' :: rest =>
      match parseStrBody fuel rest with
      | some (s, r) => some (Json.str s, r)
      | none => none
    | '[' :: rest =>
      match skipWs rest with
      | ']' :: r2 => some (Json.arr [], r2)
      | r2 =>
        match parseArrElems fuel r2 with
        | some (es, r3) => some (Json.arr es, r3)
        | none => none
    | '\x7b' :: rest =>
      match skipWs rest with
      | '\x7d' :: r2 => some (Json.obj [], r2)
      | r2 =>
        match parseObjFields fuel r2 with
        | some (fs, r3) => some (Json.obj fs, r3)
        | none => none
    | rest =>
      match parseNumChars rest with
      | some (q, r) => some (Json.num q, r)
      | none => none

/-- String body after the opening quote: plain characters (control characters
rejected as in JSON), the short escapes, and `\uXXXX`. -/
def parseStrBody : Nat → List Char → Option (List Char × List Char)
  | 0, _ => none
  | Nat.succ fuel, cs =>
    match cs with
    | [] => none
    | '\x22' :: rest => some ([], rest)
    | '\\' :: esc :: rest =>
      match esc with
      | '\x22' =>
        match parseStrBody fuel rest with
        | some (s, r) => some ('\x22' :: s, r)
        | none => none
      | '\\' =>
        match parseStrBody fuel rest with
        | some (s, r) => some ('\\' :: s, r)
        | none => none
      | '/' =>
        match parseStrBody fuel rest with
        | some (s, r) => some ('/' :: s, r)
        | none => none
      | 'b' =>
        match parseStrBody fuel rest with
        | some (s, r) => some ('\x08' :: s, r)
        | none => none
      | 'f' =>
        match parseStrBody fuel rest with
        | some (s, r) => some ('\x0c' :: s, r)
        | none => none
      | 'n' =>
        match parseStrBody fuel rest with
        | some (s, r) => some ('\n' :: s, r)
        | none => none
      | 'r' =>
        match parseStrBody fuel rest with
        | some (s, r) => some ('\r' :: s, r)
        | none => none
      | 't' =>
        match parseStrBody fuel rest with
        | some (s, r) => some ('\t' :: s, r)
        | none => none
      | 'u' =>
        match rest with
        | h1 :: h2 :: h3 :: h4 :: rest2 =>
          match hexVal h1, hexVal h2, hexVal h3, hexVal h4 with
          | some a, some b, some c, some d =>
            match parseStrBody fuel rest2 with
            | some (s, r) => some (Char.ofNat (((a * 16 + b) * 16 + c) * 16 + d) :: s, r)
            | none => none
          | _, _, _, _ => none
        | _ => none
      | _ => none
    | c :: rest =>
      if c.toNat < 32 then none
      else
        match parseStrBody fuel rest with
        | some (s, r) => some (c :: s, r)
        | none => none

/-- Non-empty array element list: value, then `,` more elements or `]`. -/
def parseArrElems : Nat → List Char → Option (List Json × List Char)
  | 0, _ => none
  | Nat.succ fuel, cs =>
    match parseJsonVal fuel cs with
    | none => none
    | some (v, rest) =>
      match skipWs rest with
      | ',' :: rest2 =>
        match parseArrElems fuel rest2 with
        | some (es, r) => some (v :: es, r)
        | none => none
      | ']' :: rest2 => some ([v], rest2)
      | _ => none

/-- Non-empty object field list: `"key" : value`, then `,` more or the
closing brace. -/
def parseObjFields : Nat → List Char → Option (List (List Char × Json) × List Char)
  | 0, _ => none
  | Nat.succ fuel, cs =>
    match skipWs cs with
    | '\x22' :: rest =>
      match parseStrBody fuel rest with
      | none => none
      | some (key, rest1) =>
        match skipWs rest1 with
        | ':' :: rest2 =>
          match parseJsonVal fuel rest2 with
          | none => none
          | some (v, rest3) =>
            match skipWs rest3 with
            | ',' :: rest4 =>
              match parseObjFields fuel rest4 with
              | some (fs, r) => some ((key, v) :: fs, r)
              | none => none
            | '\x7d' :: rest4 => some ([(key, v)], rest4)
            | _ => none
        | _ => none
    | _ => none

end

/-- `JSON.parse` on a whole character list: one value, only whitespace
may remain.  Generous fuel: nesting depth never exceeds the input length. -/
def jsonParse (cs : List Char) : Option Json :=
  match parseJsonVal (2 * cs.length + 8) cs with
  | some (j, rest) => if (skipWs rest).isEmpty then some j else none
  | none => none

/-! ## Output Parser — translation of `src/apps/api/src/types/ai.ts` -/

/-- JavaScript truthiness of a parsed JSON value (`null`, `false`, `0` and
the empty string are falsy; arrays and objects are always truthy). -/
def jsTruthy : Json → Bool
  | Json.null => false
  | Json.bool b => b
  | Json.num q => q.num != 0
  | Json.str s => !s.isEmpty
  | Json.arr _ => true
  | Json.obj _ => true

/-- JavaScript property read `obj[k]` on a parsed JSON value: `none` plays
the role of `undefined`.  For duplicate keys `JSON.parse` keeps the last. -/
def jsGet (j : Json) (k : List Char) : Option Json :=
  match j with
  | Json.obj fs =>
    match fs.reverse.find? (fun p => p.1 == k) with
    | some p => some p.2
    | none => none
  | _ => none

/-- `typeof x === 'number'` on an optional property value. -/
def isNumProp : Option Json → Bool
  | some (Json.num _) => true
  | _ => false

/-- `Array.isArray(x)` on an optional property value. -/
def isArrProp : Option Json → Bool
  | some (Json.arr _) => true
  | _ => false

/-- `typeof x === 'string'` on an optional property value. -/
def isStrProp : Option Json → Bool
  | some (Json.str _) => true
  | _ => false

/-- ai.ts lines 23-31, `isFrame`: duck-typing check for one per-frame entry
(`frame` number, `ai_likelihood` number, `artifacts_detected` array,
`rationale` string). -/
def isFrame (j : Json) : Bool :=
  jsTruthy j
    && isNumProp (jsGet j ("frame").toList)
    && isNumProp (jsGet j ("ai_likelihood").toList)
    && isArrProp (jsGet j ("artifacts_detected").toList)
    && isStrProp (jsGet j ("rationale").toList)

/-- ai.ts lines 33-35, `isFrameArray`: a non-empty array whose members all
pass `isFrame`. -/
def isFrameArray (j : Json) : Bool :=
  match j with
  | Json.arr xs => !xs.isEmpty && xs.all isFrame
  | _ => false

/-- ai.ts line 41: `['ai','human','uncertain'].includes(obj.label)`. -/
def labelIncluded : Option Json → Bool
  | some (Json.str s) =>
    s == ("ai").toList || s == ("human").toList || s == ("uncertain").toList
  | _ => false

/-- ai.ts lines 37-45, `isSummary`: duck-typing check for the summary shape
(`ai_generated_likelihood` number, `label` among ai/human/uncertain,
`artifacts_detected` array, `rationale` array).  No range check and no
clamping is performed on the likelihood. -/
def isSummary (j : Json) : Bool :=
  jsTruthy j
    && isNumProp (jsGet j ("ai_generated_likelihood").toList)
    && labelIncluded (jsGet j ("label").toList)
    && isArrProp (jsGet j ("artifacts_detected").toList)
    && isArrProp (jsGet j ("rationale").toList)

/-- ai.ts lines 18-21, `ParseResult`: parsed data or an error message. -/
structure ParseResult where
  data : Option Json
  error : Option (List Char)

/-- ai.ts lines 53-61, `tryParse`: `JSON.parse` a candidate and keep it only
if it matches one of the two known shapes; parse failures yield null. -/
def tryParse (s : List Char) : Option Json :=
  match jsonParse s with
  | some parsed => if isSummary parsed || isFrameArray parsed then some parsed else none
  | none => none

/-- The three backticks delimiting a markdown code fence. -/
def tick3 : List Char := ['\x60', '\x60', '\x60']

/-- Index of the first occurrence of `pat` in `cs` (cf. `String.indexOf` /
the regex search start). -/
def findSub (pat : List Char) : List Char → Option Nat
  | [] => if pat.isEmpty then some 0 else none
  | c :: rest =>
    if List.isPrefixOf pat (c :: rest) then some 0
    else
      match findSub pat rest with
      | some i => some (i + 1)
      | none => none

/-- `text.indexOf(ch)`, as an option instead of `-1`. -/
def idxOfChar (ch : Char) (cs : List Char) : Option Nat := findSub [ch] cs

/-- `text.lastIndexOf(ch)`, as an option instead of `-1`. -/
def lastIdxOfChar (ch : Char) (cs : List Char) : Option Nat :=
  match findSub [ch] cs.reverse with
  | some k => some (cs.length - 1 - k)
  | none => none

/-- `String.prototype.trim` (the JSON-relevant whitespace subset). -/
def trimChars (cs : List Char) : List Char :=
  ((cs.dropWhile Char.isWhitespace).reverse.dropWhile Char.isWhitespace).reverse

/-- ai.ts line 68: the regex ```` /```(?:json)?\s*([\s\S]*?)```/i ````.
Finds the first fence, optionally skips a case-insensitive `json` tag, skips
whitespace greedily, and captures lazily up to the next fence. -/
def extractCodeFence (cs : List Char) : Option (List Char) :=
  match findSub tick3 cs with
  | none => none
  | some i =>
    let afterOpen := cs.drop (i + 3)
    let afterTag :=
      if (afterOpen.take 4).map Char.toLower == ("json").toList then afterOpen.drop 4
      else afterOpen
    let body := afterTag.dropWhile Char.isWhitespace
    match findSub tick3 body with
    | none => none
    | some j => some (body.take j)

/-- ai.ts lines 74-81: the substring from the first `{` to the last `}`,
provided both exist and the span is non-degenerate. -/
def braceSpan (cs : List Char) : Option (List Char) :=
  match idxOfChar '\x7b' cs, lastIdxOfChar '\x7d' cs with
  | some s, some e => if s < e then some ((cs.drop s).take (e + 1 - s)) else none
  | _, _ => none

/-- ai.ts lines 83-90: the substring from the first `[` to the last `]`,
provided both exist and the span is non-degenerate. -/
def bracketSpan (cs : List Char) : Option (List Char) :=
  match idxOfChar '[' cs, lastIdxOfChar ']' cs with
  | some s, some e => if s < e then some ((cs.drop s).take (e + 1 - s)) else none
  | _, _ => none

/-- ai.ts lines 48-93, `parseAIDetectionOutput`: the defensive output parser.
Step 1 parses the text as-is; step 2 the interior of a markdown code fence
(only when the capture is non-empty, trimmed); step 3 the first-`{`-to-
last-`}` span; step 4 the first-`[`-to-last-`]` span; otherwise a parse
error.  Empty input short-circuits to an error. -/
def parseAIDetectionOutput (text : List Char) : ParseResult :=
  if text.isEmpty then
    { data := none, error := some ("Empty analysis text").toList }
  else
    match tryParse text with
    | some d => { data := some d, error := none }
    | none =>
      match
        (match extractCodeFence text with
         | some inner => if inner.isEmpty then none else tryParse (trimChars inner)
         | none => none) with
      | some d => { data := some d, error := none }
      | none =>
        match (braceSpan text).bind tryParse with
        | some d => { data := some d, error := none }
        | none =>
          match (bracketSpan text).bind tryParse with
          | some d => { data := some d, error := none }
          | none =>
            { data := none
              error := some ("Failed to parse AI detection JSON from analysis output").toList }

/-! ## Spec-side description of the Output Parser fallback chain (claim C2)

The claim describes the parser as an ordered candidate chain — whole text,
fence interior, brace span, bracket span — where each candidate is parsed
and validated against the two shapes, the first match wins, mismatches are
discarded, and exhaustion yields a parse error. -/

/-- The ordered candidate list of the specified fallback chain. -/
def specCandidates (text : List Char) : List (List Char) :=
  [text]
    ++ (match extractCodeFence text with
        | some inner => if inner.isEmpty then [] else [trimChars inner]
        | none => [])
    ++ (braceSpan text).toList
    ++ (bracketSpan text).toList

/-- First candidate that parses as JSON and matches one of the two known
shapes, per the specified chain. -/
def specChainData (text : List Char) : Option Json :=
  (specCandidates text).findSome? tryParse

/-! ## Recording controller — translation of
`src/apps/api/src/controllers/recording.ts` (first revision, gpt-5 prompt,
lines 1-274) -/

/-- recording.ts lines 108-117: trailing-fence strip, the regex
`/\s*` with three backticks anchored at the end (applied only when the
trimmed text ends with a fence). -/
def stripTrailingFence (cs : List Char) : List Char :=
  let r := cs.reverse
  if List.isPrefixOf tick3 r then ((r.drop 3).dropWhile Char.isWhitespace).reverse
  else cs

/-- recording.ts lines 108-117: `analysisText.trim()` followed by removal of
a leading ```` ```json ```` or ```` ``` ```` fence and of a trailing
```` ``` ```` fence. -/
def cleanRecordingText (cs : List Char) : List Char :=
  let t := trimChars cs
  if List.isPrefixOf ("```json").toList t then
    stripTrailingFence ((t.drop 7).dropWhile Char.isWhitespace)
  else if List.isPrefixOf tick3 t then
    stripTrailingFence ((t.drop 3).dropWhile Char.isWhitespace)
  else t

/-- JavaScript `parseFloat` on a string: optional leading whitespace and
sign, then a decimal with optional fraction and exponent, reading the
longest valid numeric head; no digits at all gives NaN (`none`). -/
def parseFloatChars (cs : List Char) : Option ℚ :=
  let t := cs.dropWhile Char.isWhitespace
  let signSplit : Bool × List Char :=
    match t with
    | '-' :: r => (true, r)
    | '+' :: r => (false, r)
    | _ => (false, t)
  let ip := signSplit.2.takeWhile Char.isDigit
  let afterIp := signSplit.2.drop ip.length
  let fracSplit : Nat × Nat × List Char :=
    match afterIp with
    | '.' :: r =>
      let fd := r.takeWhile Char.isDigit
      (digitsToNat fd, fd.length, r.drop fd.length)
    | _ => (0, 0, afterIp)
  if ip.isEmpty && fracSplit.2.1 == 0 then none
  else
    let expSplit : Bool × Nat :=
      match fracSplit.2.2 with
      | c :: r =>
        if c == 'e' || c == 'E' then
          let signRest : Bool × List Char :=
            match r with
            | '+' :: rr => (false, rr)
            | '-' :: rr => (true, rr)
            | _ => (false, r)
          let ed := signRest.2.takeWhile Char.isDigit
          if ed.isEmpty then (false, 0) else (signRest.1, digitsToNat ed)
        else (false, 0)
      | [] => (false, 0)
    some (assembleNum signSplit.1 (digitsToNat ip) fracSplit.1 fracSplit.2.1
      expSplit.1 expSplit.2)

/-- `parseFloat(x)` on a property value read from parsed JSON: numbers pass
through, strings get the prefix parse, anything else (including a missing
property) is NaN (`none`). -/
def jsParseFloat : Option Json → Option ℚ
  | some (Json.num q) => some q
  | some (Json.str s) => parseFloatChars s
  | _ => none

/-- `x || 0`: NaN (and 0 itself) collapse to 0. -/
def numOrZero : Option ℚ → ℚ
  | some q => q
  | none => 0

/-- `x || dflt` for an optional string property: missing, non-string or
empty values fall back to the default. -/
def jsStrOr (x : Option Json) (dflt : List Char) : List Char :=
  match x with
  | some (Json.str s) => if s.isEmpty then dflt else s
  | _ => dflt

/-- recording.ts lines 128-131: `Math.max(0, Math.min(1, ...))`. -/
def clampLikelihood (q : ℚ) : ℚ := max 0 (min 1 q)

/-- recording.ts lines 61-66: the structured analysis record returned to the
controller. -/
structure RecordingAnalysis where
  username : List Char
  whatYouSee : List Char
  reasoning : List Char
  aiGeneratedLikelihood : ℚ

/-- recording.ts lines 120-132: field extraction from the parsed JSON with
defaulting and the likelihood clamp. -/
def recordingFromJson (j : Json) : RecordingAnalysis :=
  { username := jsStrOr (jsGet j ("username").toList) ("unknown").toList
    whatYouSee := jsStrOr (jsGet j ("whatYouSee").toList)
      ("Unable to analyze content").toList
    reasoning := jsStrOr (jsGet j ("reasoning").toList)
      ("No reasoning provided").toList
    aiGeneratedLikelihood :=
      clampLikelihood (numOrZero (jsParseFloat (jsGet j ("aiGeneratedLikelihood").toList))) }

/-- recording.ts lines 138-146: fallback when the response text is not
parseable JSON; `whatYouSee` carries a 200-character preview of the raw
text, the likelihood is 0. -/
def recordingParseFallback (analysisText : List Char) : RecordingAnalysis :=
  { username := ("unknown").toList
    whatYouSee :=
      if 200 < analysisText.length then analysisText.take 200 ++ ("...").toList
      else analysisText
    reasoning := ("JSON parsing failed, using fallback analysis").toList
    aiGeneratedLikelihood := 0 }

/-- recording.ts lines 151-159: fallback when the OpenAI call itself throws;
the likelihood is 0. -/
def recordingApiFallback : RecordingAnalysis :=
  { username := ("unknown").toList
    whatYouSee := ("Analysis failed due to API error").toList
    reasoning := ("OpenAI API call failed").toList
    aiGeneratedLikelihood := 0 }

/-- Outcome of the one chat-completions request of the recording analysis:
the model returned content, returned no content (`throw` inside the `try`),
or the API call threw. -/
inductive ChatOutcome where
  | content (text : List Char) : ChatOutcome
  | noContent : ChatOutcome
  | apiThrow : ChatOutcome

/-- What one recording-analysis call did: its result, how many network
requests it issued, and which frames it transmitted. -/
structure RecordingCall where
  result : RecordingAnalysis
  requests : Nat
  framesSent : List String

/-- recording.ts lines 61-160, `analyzeFramesWithOpenAI` (recording
revision): takes up to the first 3 frames (`frames.slice(0, 3)`), issues
exactly one request with all of them, and is total — every API or parse
failure is converted into a fallback record, never a thrown exception. -/
def analyzeFramesWithOpenAIRec (frames : List String) (api : ChatOutcome) : RecordingCall :=
  let framesToAnalyze := frames.take 3
  match api with
  | ChatOutcome.apiThrow =>
    { result := recordingApiFallback, requests := 1, framesSent := framesToAnalyze }
  | ChatOutcome.noContent =>
    { result := recordingApiFallback, requests := 1, framesSent := framesToAnalyze }
  | ChatOutcome.content text =>
    match jsonParse (cleanRecordingText text) with
    | some j =>
      { result := recordingFromJson j, requests := 1, framesSent := framesToAnalyze }
    | none =>
      { result := recordingParseFallback text, requests := 1, framesSent := framesToAnalyze }

/-- The HTTP response of the recording endpoint (status, `success` flag,
and the analysis object when present). -/
structure RecordingResponse where
  status : Nat
  success : Bool
  analysis : Option RecordingAnalysis

/-- recording.ts lines 162-274, `handleRecording`: a 400 for an empty or
missing frames array, otherwise save the frames, run the analysis and
answer 200 with `success: true`.  Filesystem writes are modelled as
succeeding — the claims under test concern model-side failures, which are
fully absorbed inside `analyzeFramesWithOpenAIRec`. -/
def handleRecording (frames : List String) (api : ChatOutcome) : RecordingResponse :=
  if frames.isEmpty then { status := 400, success := false, analysis := none }
  else
    let call := analyzeFramesWithOpenAIRec frames api
    { status := 200, success := true, analysis := some call.result }

/-! ## Stable sort mirroring JavaScript `Array.prototype.sort`

V8's sort is stable; for a key-based comparator the result is canonical:
elements ordered by key, equal keys in original order.  `sortByLt` inserts
each element before the first already-placed element that is not strictly
below it. -/

/-- Insert `a` after every element strictly below it (per the Bool
comparator `lt`), before the first that is not. -/
def insertByLt (lt : α → α → Bool) (a : α) : List α → List α
  | [] => [a]
  | b :: l => if lt b a then b :: insertByLt lt a l else a :: b :: l

/-- Stable insertion sort with a strict Bool comparator. -/
def sortByLt (lt : α → α → Bool) : List α → List α
  | [] => []
  | a :: l => insertByLt lt a (sortByLt lt l)

/-- `Rat.blt`-based strict comparison on the second (key) component, the
comparator `(a, b) => a.sort - b.sort` of the random-selection code. -/
def ratKeyLt (x y : α × ℚ) : Bool := Rat.blt x.2 y.2

/-! ## Random frame selection — translation of `src/unnamed/part_003`
(`analyzeFramesWithOpenAI`, forensic recording revision, lines 54-63) -/

/-- part_003 lines 55-63: when more than 6 frames are supplied, pair each
frame with a `Math.random()` draw (`keys`), sort by the draw, and keep the
first 6 of the shuffled order; with at most 6 frames, keep them all. -/
def selectRandomFrames003 (frames : List String) (keys : List ℚ) : List String :=
  if frames.length ≤ 6 then frames
  else ((sortByLt ratKeyLt (frames.zip keys)).take 6).map Prod.fst

/-- part_003 lines 54-112: the selected frames all go into one
chat-completions request.  Returns (frames transmitted, requests issued). -/
def analyzeFramesWithOpenAI003 (frames : List String) (keys : List ℚ) :
    List String × Nat :=
  (selectRandomFrames003 frames keys, 1)

/-! ## Analysis clients — translation of `src/unnamed/part_015`
(`analyzeFrameWithOpenAI`) and `src/unnamed/part_009`
(`analyzeFramesWithOpenAI`, lines 159-210) -/

/-- The on-disk files visible to a client: path ↦ size in bytes. -/
abbrev FileSys := List (String × Nat)

/-- `fs.existsSync`. -/
def fileExists (fsys : FileSys) (p : String) : Bool :=
  fsys.any (fun e => e.1 == p)

/-- `fs.statSync(p).size` for an existing file (0 otherwise). -/
def fileSize (fsys : FileSys) (p : String) : Nat :=
  match fsys.find? (fun e => e.1 == p) with
  | some e => e.2
  | none => 0

/-- The distinct failure kinds thrown by part_015 before any network
traffic: an empty path list, a missing frame file, an empty frame file. -/
inductive FrameClientError where
  | noFramePaths : FrameClientError
  | frameFileMissing (p : String) : FrameClientError
  | frameFileEmpty (p : String) : FrameClientError
deriving DecidableEq

/-- part_015 lines 26-36: the `paths.map` body — validate each path in
order, throwing at the first missing or empty file. -/
def validateFrames015 (fsys : FileSys) : List String → Except FrameClientError Unit
  | [] => Except.ok ()
  | p :: rest =>
    if !fileExists fsys p then Except.error (FrameClientError.frameFileMissing p)
    else if fileSize fsys p == 0 then Except.error (FrameClientError.frameFileEmpty p)
    else validateFrames015 fsys rest

/-- part_015 lines 17-53, `analyzeFrameWithOpenAI`: throws `No frame paths
provided` on an empty list, validates every path (throwing per-file errors)
while building the image payload, and only then issues the single request.
Returns the outcome paired with the number of network requests issued. -/
def analyzeFrameWithOpenAI (fsys : FileSys) (paths : List String)
    (apiText : List Char) : Except FrameClientError (List Char) × Nat :=
  if paths.isEmpty then (Except.error FrameClientError.noFramePaths, 0)
  else
    match validateFrames015 fsys paths with
    | Except.error e => (Except.error e, 0)
    | Except.ok _ => (Except.ok apiText, 1)

/-- `String.prototype.includes` on character lists. -/
def containsSub (pat cs : List Char) : Bool := (findSub pat cs).isSome

/-- part_009 lines 159-210, `analyzeFramesWithOpenAI`: filters the supplied
paths to files that exist and are non-empty, throws a no-frames error when
none remain (re-thrown by the surrounding catch as `Analysis failed: ...`),
otherwise sends the first 10 surviving frames in one request; a thrown API
error mentioning `billing` is converted into an apologetic text result,
any other is re-thrown with an `Analysis failed:` prelude.  Returns the
outcome, the number of network requests, and the frames transmitted. -/
def analyzeFramesWithOpenAI009 (fsys : FileSys) (framePaths : List String)
    (api : Except (List Char) (List Char)) :
    Except (List Char) (List Char) × Nat × List String :=
  let existing := framePaths.filter (fun p => fileExists fsys p && !(fileSize fsys p == 0))
  if existing.isEmpty then
    (Except.error (("Analysis failed: No frames extracted from video for analysis").toList),
      0, [])
  else
    let sent := existing.take 10
    match api with
    | Except.ok t => (Except.ok t, 1, sent)
    | Except.error msg =>
      if containsSub ("billing").toList msg then
        (Except.ok (("Unable to analyze frames: OpenAI API billing issue. Please check your account.").toList),
          1, sent)
      else (Except.error (("Analysis failed: ").toList ++ msg), 1, sent)

/-! ## Media Extractor directory enumeration — translation of
`src/unnamed/part_016` (`extractFrames`, lines 72-79) and
`src/unnamed/part_009` (`extractMultipleFrames`, lines 112-145) -/

/-- Strict code-unit lexicographic comparison, the default JS
`Array.prototype.sort` comparator for strings. -/
def strLtChars : List Char → List Char → Bool
  | [], [] => false
  | [], _ :: _ => true
  | _ :: _, [] => false
  | a :: as, b :: bs =>
    if a.toNat < b.toNat then true
    else if b.toNat < a.toNat then false
    else strLtChars as bs

/-- Default JS string sort on file names. -/
def strLt (a b : String) : Bool := strLtChars a.1 b.1

/-- part_016 lines 72-79: after the subprocess ends, re-read the output
directory, keep names of the form `frame-*.jpg`, and sort with the default
(lexicographic) comparator.  The sizes in the listing are never consulted:
there is no non-empty filter here. -/
def extractFramesEnum016 (listing : FileSys) : List String :=
  sortByLt strLt
    ((listing.map Prod.fst).filter
      (fun f => List.isPrefixOf ("frame-").toList f.1
        && List.isSuffixOf (".jpg").toList f.1))

/-- A maximal digit run, the capture of the regex `/(\d+)/`. -/
def firstDigitRun (cs : List Char) : List Char :=
  (cs.dropWhile (fun c => !c.isDigit)).takeWhile Char.isDigit

/-- part_009 lines 125-127: `parseInt(name.match(/(\d+)/)?.[1] || '0', 10)`,
the numeric index embedded in a frame filename. -/
def parseIdx (s : String) : Nat := digitsToNat (firstDigitRun s.1)

/-- Strict comparison by embedded numeric index. -/
def idxLt (a b : String) : Bool := parseIdx a < parseIdx b

/-- part_009 line 123: the filename filter `/^frame-\d+\.jpg$/` (the other
two regex alternatives are subsumed by this one). -/
def matchesFramePattern009 (s : String) : Bool :=
  List.isPrefixOf ("frame-").toList s.1 && List.isSuffixOf (".jpg").toList s.1
    && (let tail := s.1.drop 6
        let mid := tail.take (tail.length - 4)
        !mid.isEmpty && mid.all Char.isDigit)

/-- part_009 lines 119-129: names re-read from disk, filtered by the frame
pattern and sorted by embedded numeric index. -/
def framesFromDisk009 (listing : FileSys) : List String :=
  sortByLt idxLt ((listing.map Prod.fst).filter matchesFramePattern009)

/-- part_009 line 136: the planned fallback names
`frame-001.jpg ... frame-NNN.jpg`. -/
def plannedNames009 (frameCount : Nat) : List String :=
  (List.range frameCount).map (fun i =>
    let d := toString (i + 1)
    let padded := if d.length < 3 then String.mk (List.replicate (3 - d.length) '0') ++ d else d
    "frame-" ++ padded ++ ".jpg")

/-- part_009 lines 112-145, `extractMultipleFrames` (the `on end` handler):
prefer the re-read, pattern-filtered, index-sorted directory listing; fall
back to the subprocess-reported (`created`) or planned names only when that
listing yields nothing; finally keep only names that exist on disk.  No
file-size filter is applied here. -/
def extractMultipleFramesEnum (listing : FileSys) (created : List String)
    (frameCount : Nat) : List String :=
  let fromDisk := framesFromDisk009 listing
  let planned :=
    if fromDisk.isEmpty then
      if !created.isEmpty then created else plannedNames009 frameCount
    else fromDisk
  planned.filter (fun p => fileExists listing p)

/-! ## Upload pipeline — translation of `src/unnamed/part_011`
(`extractAndAnalyze`), `src/apps/api/src/controllers/video.ts`
(`uploadVideo`), `src/apps/api/src/ws.ts` (broadcaster) and
`src/unnamed/part_005` (`uploadVideo` with broadcasting) -/

/-- Temporary directories currently on disk. -/
abbrev TempFS := List String

/-- The uniquely-named frames directory of one request (name fixed in the
model; uniqueness plays no role in the per-request claims). -/
def framesFolder : String := "frames-temp"

/-- The uniquely-named audio directory of one request. -/
def audioFolder : String := "audio-temp"

/-- part_011 lines 62-75, `safeRemoveFolder`: best-effort recursive
removal; in the model removal succeeds and deletes the directory. -/
def safeRemoveFolder (folder : String) (fs : TempFS) : TempFS :=
  fs.filter (fun d => d != folder)

/-- Outcomes of the external calls made during one upload request: the
frame-extraction subprocess, the audio-extraction subprocess, and the
analysis client (each either its result or a thrown error message). -/
structure PipelineEnv where
  framesOutcome : Except (List Char) (List String)
  audioOutcome : Except (List Char) String
  analysisOutcome : Except (List Char) (List Char)

/-- part_011 lines 7-13, `FrameAnalysisResult`. -/
structure FrameAnalysisResult where
  success : Bool
  frameExtracted : Bool
  frames : Option (List String)
  analysis : Option (List Char)
  error : Option (List Char)

/-- What one `extractAndAnalyze` invocation did: its outcome (an error means
a thrown exception), the temp directories left on disk, how often the
analysis client was invoked, and whether the `finally` cleanup ran. -/
structure ExtractRun where
  result : Except (List Char) FrameAnalysisResult
  fs : TempFS
  aiCalls : Nat
  cleanupRan : Bool

/-- part_011 lines 16-59, `extractAndAnalyze`.  `extractFrames` and
`extractAudio` each create their directory (`mkdirSync`) before running the
subprocess, and both are awaited BEFORE the `try` block; a subprocess
failure therefore propagates without entering the `try`, so the `finally`
does not run.  Inside the `try`, the guard `if (!frames) throw` never fires
(an array is always truthy); the analysis client is invoked and any throw
is caught into a failure record.  The `finally` removes only the frames
folder — the audio folder removal is commented out in the source. -/
def extractAndAnalyze (env : PipelineEnv) (fs : TempFS) : ExtractRun :=
  let fs1 := framesFolder :: fs
  match env.framesOutcome with
  | Except.error e => { result := Except.error e, fs := fs1, aiCalls := 0, cleanupRan := false }
  | Except.ok frames =>
    let fs2 := audioFolder :: fs1
    match env.audioOutcome with
    | Except.error e => { result := Except.error e, fs := fs2, aiCalls := 0, cleanupRan := false }
    | Except.ok _audioPath =>
      let body : FrameAnalysisResult :=
        match env.analysisOutcome with
        | Except.ok analysis =>
          { success := true, frameExtracted := true, frames := some frames
            analysis := some analysis, error := none }
        | Except.error e =>
          { success := false, frameExtracted := false, frames := none
            analysis := none, error := some e }
      { result := Except.ok body, fs := safeRemoveFolder framesFolder fs2
        aiCalls := 1, cleanupRan := true }

/-- The observable outcome of one upload request: HTTP status, temp
directories left on disk, analysis-client invocations, and whether the
`finally` cleanup step ran. -/
structure UploadRun where
  status : Nat
  fs : TempFS
  aiCalls : Nat
  cleanupRan : Bool

/-- video.ts lines 20-81, `uploadVideo`: 400 on a missing file or failed
upload processing, then `extractAndAnalyze`; a thrown exception is caught
into a 500, a returned failure record into a 502, and a success record
into a 200 (parse + response; the uploaded video file cleanup that follows
does not touch the extraction directories). -/
def uploadVideo (fileProvided processOk : Bool) (env : PipelineEnv)
    (fs : TempFS) : UploadRun :=
  if !fileProvided then { status := 400, fs := fs, aiCalls := 0, cleanupRan := false }
  else if !processOk then { status := 400, fs := fs, aiCalls := 0, cleanupRan := false }
  else
    let run := extractAndAnalyze env fs
    match run.result with
    | Except.error _ =>
      { status := 500, fs := run.fs, aiCalls := run.aiCalls, cleanupRan := run.cleanupRan }
    | Except.ok r =>
      if r.success && r.analysis.isSome then
        { status := 200, fs := run.fs, aiCalls := run.aiCalls, cleanupRan := run.cleanupRan }
      else
        { status := 502, fs := run.fs, aiCalls := run.aiCalls, cleanupRan := run.cleanupRan }

/-- ws.ts lines 91-100, `broadcastAnalysisStatus`: a synchronous `forEach`
over the connected clients with an unguarded `ws.send`; one throwing send
propagates out of the function (there is no try/catch here).  `sends`
records, per client, whether its send succeeds. -/
def broadcastAnalysisStatus (sends : List Bool) : Except Unit Unit :=
  if sends.all (fun b => b) then Except.ok () else Except.error ()

/-- ws.ts lines 103-112, `triggerFrameStreaming`: iterates the clients with
an `async` callback, so every exception inside is contained in a detached
promise and never reaches the caller. -/
def triggerFrameStreaming (_sends : List Bool) : Unit := ()

/-- part_005 lines 22-96, `uploadVideo` (revision with progress
broadcasting): after validation it fire-and-forgets the frame streaming,
then calls `broadcastAnalysisStatus` before, during and after the
extraction/analysis; each such call sits inside the controller `try`, so a
throwing send turns the request into a 500.  Broadcast outcomes are
determined by the fixed per-client `sends`. -/
def uploadVideoWs (fileProvided processOk : Bool) (sends : List Bool)
    (env : PipelineEnv) (fs : TempFS) : UploadRun :=
  if !fileProvided then { status := 400, fs := fs, aiCalls := 0, cleanupRan := false }
  else if !processOk then { status := 400, fs := fs, aiCalls := 0, cleanupRan := false }
  else
    let _streaming := triggerFrameStreaming sends
    match broadcastAnalysisStatus sends with
    | Except.error _ => { status := 500, fs := fs, aiCalls := 0, cleanupRan := false }
    | Except.ok _ =>
      match broadcastAnalysisStatus sends with
      | Except.error _ => { status := 500, fs := fs, aiCalls := 0, cleanupRan := false }
      | Except.ok _ =>
        let run := extractAndAnalyze env fs
        match run.result with
        | Except.error _ =>
          { status := 500, fs := run.fs, aiCalls := run.aiCalls, cleanupRan := run.cleanupRan }
        | Except.ok r =>
          if r.success && r.analysis.isSome then
            match broadcastAnalysisStatus sends with
            | Except.error _ =>
              { status := 500, fs := run.fs, aiCalls := run.aiCalls, cleanupRan := run.cleanupRan }
            | Except.ok _ =>
              { status := 200, fs := run.fs, aiCalls := run.aiCalls, cleanupRan := run.cleanupRan }
          else
            match broadcastAnalysisStatus sends with
            | Except.error _ =>
              { status := 500, fs := run.fs, aiCalls := run.aiCalls, cleanupRan := run.cleanupRan }
            | Except.ok _ =>
              { status := 502, fs := run.fs, aiCalls := run.aiCalls, cleanupRan := run.cleanupRan }

/-- The parsed summary likelihood a reader of the upload response observes
(`data.analysis.parsed.ai_generated_likelihood`). -/
def summaryLikelihoodOf (d : Option Json) : Option ℚ :=
  match d with
  | some j =>
    match jsGet j ("ai_generated_likelihood").toList with
    | some (Json.num q) => some q
    | _ => none
  | none => none

/-- video.ts lines 107-137, `buildSuccessResponse` (analysis part): the
parsed data and the parse error are copied into the response unchanged. -/
structure UploadAnalysisPayload where
  raw : List Char
  parsed : Option Json
  parseErr : Option (List Char)

/-- video.ts `buildSuccessResponse`: `parsed := parsedAnalysis.data`,
`parseError := parsedAnalysis.error`, no further processing. -/
def buildSuccessResponse (raw : List Char) (p : ParseResult) : UploadAnalysisPayload :=
  { raw := raw, parsed := p.data, parseErr := p.error }

/-! ## Concrete inputs and environments used by the theorems -/

/-- `Except.isOk` spelled out (kernel-friendly, independent of library
helpers). -/
def exceptIsOk : Except ε α → Bool
  | Except.ok _ => true
  | Except.error _ => false

/-- A model summary whose likelihood 1.5 lies outside [0,1]. -/
def overTxt : List Char :=
  ("\x7b\"ai_generated_likelihood\":1.5,\"label\":\"ai\",\"artifacts_detected\":[],\"rationale\":[]\x7d").toList

/-- The spec's example input for claim C4: prose, then a json-tagged fence
holding the camelCase field set. -/
def c4Camel : List Char :=
  ("Sure, here you go:\n```json\n\x7b\"aiGeneratedLikelihood\":0.42,\"artifactsDetected\":[],\"rationale\":[],\"whatIsIt\":[],\"howToBehave\":[]\x7d\n```").toList

/-- The same prose-and-fence input carrying the snake_case field set (with
`label`) that `isSummary` actually validates. -/
def c4Snake : List Char :=
  ("Sure, here you go:\n```json\n\x7b\"ai_generated_likelihood\":0.42,\"label\":\"ai\",\"artifacts_detected\":[],\"rationale\":[]\x7d\n```").toList

/-- An upload request on which every external call succeeds. -/
def envOkPipeline : PipelineEnv :=
  { framesOutcome := Except.ok ["frame-00001.jpg"]
    audioOutcome := Except.ok "audio.wav"
    analysisOutcome := Except.ok ("raw analysis").toList }

/-- An upload request whose analysis client throws. -/
def envAnalysisFail : PipelineEnv :=
  { framesOutcome := Except.ok ["frame-00001.jpg"]
    audioOutcome := Except.ok "audio.wav"
    analysisOutcome := Except.error ("AI analysis failed").toList }

/-- An upload request whose frame-extraction subprocess exits nonzero. -/
def envExtractFail : PipelineEnv :=
  { framesOutcome := Except.error ("ffmpeg exited with code 1").toList
    audioOutcome := Except.ok "audio.wav"
    analysisOutcome := Except.ok ("raw analysis").toList }

/-! ## Helper lemmas about the stable sort -/

/-- Inserting adds one element. -/
theorem length_insertByLt (lt : α → α → Bool) (a : α) (l : List α) :
    (insertByLt lt a l).length = l.length + 1 := by
  induction l with
  | nil => rfl
  | cons b l ih =>
    simp only [insertByLt]
    split
    · simpa using ih
    · rfl

/-- Sorting preserves length. -/
theorem length_sortByLt (lt : α → α → Bool) (l : List α) :
    (sortByLt lt l).length = l.length := by
  induction l with
  | nil => rfl
  | cons a l ih => simp [sortByLt, length_insertByLt, ih]

/-- Membership after insertion. -/
theorem mem_insertByLt (lt : α → α → Bool) (a x : α) (l : List α) :
    x ∈ insertByLt lt a l ↔ x = a ∨ x ∈ l := by
  induction l with
  | nil => simp [insertByLt]
  | cons b l ih =>
    simp only [insertByLt]
    split
    · simp only [List.mem_cons, ih]
      tauto
    · simp [List.mem_cons]

/-- Sorting preserves membership. -/
theorem mem_sortByLt (lt : α → α → Bool) (x : α) (l : List α) :
    x ∈ sortByLt lt l ↔ x ∈ l := by
  induction l with
  | nil => simp [sortByLt]
  | cons a l ih => simp [sortByLt, mem_insertByLt, ih]

/-- Inserting by strict index comparison preserves index-sortedness. -/
theorem pairwise_insertByLt_idx (a : String) (l : List String)
    (h : List.Pairwise (fun x y => parseIdx x ≤ parseIdx y) l) :
    List.Pairwise (fun x y => parseIdx x ≤ parseIdx y) (insertByLt idxLt a l) := by
  induction l with
  | nil => simp [insertByLt]
  | cons b l ih =>
    rcases List.pairwise_cons.mp h with ⟨hb, hl⟩
    simp only [insertByLt]
    by_cases hlt : idxLt b a = true
    · simp only [hlt, if_true]
      refine List.pairwise_cons.mpr ⟨?_, ih hl⟩
      intro y hy
      rcases (mem_insertByLt _ _ _ _).mp hy with hya | hyl
      · subst hya
        exact Nat.le_of_lt (by simpa [idxLt] using hlt)
      · exact hb y hyl
    · have hlt' : idxLt b a = false := by
        cases hq : idxLt b a
        · rfl
        · exact absurd hq hlt
      simp only [hlt', if_false]
      refine List.pairwise_cons.mpr ⟨?_, h⟩
      intro y hy
      have hab : parseIdx a ≤ parseIdx b :=
        Nat.le_of_not_lt (by simpa [idxLt] using hlt')
      rcases List.mem_cons.mp hy with hyb | hyl
      · subst hyb
        exact hab
      · exact le_trans hab (hb y hyl)

/-- The part_009 numeric-index sort produces an index-sorted list. -/
theorem pairwise_sortByLt_idx (l : List String) :
    List.Pairwise (fun x y => parseIdx x ≤ parseIdx y) (sortByLt idxLt l) := by
  induction l with
  | nil => simp [sortByLt]
  | cons a l ih => exact pairwise_insertByLt_idx a _ ih

/-! ## Claim theorems -/

/-- Claim C1, counterexample: with every external call succeeding, the
upload request completes (status 200 path) yet the audio extraction
directory is still on disk — its removal is commented out in
`extractAndAnalyze`, so not every temporary extraction directory is removed
before the request completes. -/
theorem uploadVideo_leaves_audio_folder :
    audioFolder ∈ (uploadVideo true true envOkPipeline []).fs
    ∧ (uploadVideo true true envOkPipeline []).status = 200 := by
  decide

/-- Claim C1, amended: for every upload that passes validation and both
extractions, the FRAMES extraction directory is removed via the `finally`
(which runs whether the analysis succeeds or throws), but the AUDIO
extraction directory remains on disk. -/
theorem uploadVideo_frames_folder_removed_finally (env : PipelineEnv) (fs0 : TempFS)
    (hf : exceptIsOk env.framesOutcome = true) (ha : exceptIsOk env.audioOutcome = true) :
    framesFolder ∉ (uploadVideo true true env fs0).fs
    ∧ (uploadVideo true true env fs0).cleanupRan = true
    ∧ audioFolder ∈ (uploadVideo true true env fs0).fs := by
  obtain ⟨frames, hfr⟩ : ∃ v, env.framesOutcome = Except.ok v := by
    cases hc : env.framesOutcome with
    | error e => rw [hc] at hf; exact absurd hf (by simp [exceptIsOk])
    | ok v => exact ⟨v, rfl⟩
  obtain ⟨ap, hau⟩ : ∃ v, env.audioOutcome = Except.ok v := by
    cases hc : env.audioOutcome with
    | error e => rw [hc] at ha; exact absurd ha (by simp [exceptIsOk])
    | ok v => exact ⟨v, rfl⟩
  have hne1 : (audioFolder != framesFolder) = true := by decide
  have hne2 : (framesFolder != framesFolder) = false := by decide
  have hne3 : ¬ framesFolder = audioFolder := by decide
  cases han : env.analysisOutcome with
  | ok analysis =>
    refine ⟨?_, ?_, ?_⟩ <;>
      simp [uploadVideo, extractAndAnalyze, hfr, hau, han, safeRemoveFolder,
        List.mem_filter, hne1, hne2, hne3]
  | error e =>
    refine ⟨?_, ?_, ?_⟩ <;>
      simp [uploadVideo, extractAndAnalyze, hfr, hau, han, safeRemoveFolder,
        List.mem_filter, hne1, hne2, hne3]

/-- Claim C1, witness for the amended theorem at a request whose analysis
client throws: the frames folder is still cleaned up (the `finally` ran)
while the audio folder remains. -/
theorem uploadVideo_frames_folder_removed_finally_witness :
    framesFolder ∉ (uploadVideo true true envAnalysisFail []).fs
    ∧ (uploadVideo true true envAnalysisFail []).cleanupRan = true
    ∧ audioFolder ∈ (uploadVideo true true envAnalysisFail []).fs :=
  uploadVideo_frames_folder_removed_finally envAnalysisFail [] (by decide) (by decide)

/-- Claim C2: the Output Parser follows exactly the specified ordered
fallback chain (whole text, non-empty fence interior trimmed, brace span,
bracket span; each candidate shape-validated, first match returned,
mismatches discarded), and when no step succeeds it returns data `null`
together with an error message — by totality it never throws. -/
theorem parseAIDetectionOutput_follows_spec_chain (text : List Char) :
    (parseAIDetectionOutput text).data = specChainData text
    ∧ ((parseAIDetectionOutput text).data.isNone = true
        ↔ (parseAIDetectionOutput text).error.isSome = true) := by
  by_cases hemp : text = []
  · subst hemp; exact ⟨rfl, by decide⟩
  · have hB : text.isEmpty = false := by
      cases text with
      | nil => exact absurd rfl hemp
      | cons c cs => rfl
    simp only [parseAIDetectionOutput, specChainData, specCandidates, hB,
      Bool.false_eq_true, if_false]
    cases h1 : tryParse text with
    | some d => simp [List.findSome?_cons, h1]
    | none =>
      cases h2 : extractCodeFence text with
      | none =>
        cases h3 : braceSpan text with
        | none =>
          cases h4 : bracketSpan text with
          | none => simp [List.findSome?_cons, h1, h2, h3, h4]
          | some c4 =>
            cases h4p : tryParse c4 with
            | none => simp [List.findSome?_cons, h1, h2, h3, h4, h4p]
            | some d => simp [List.findSome?_cons, h1, h2, h3, h4, h4p]
        | some c3 =>
          cases h3p : tryParse c3 with
          | none =>
            cases h4 : bracketSpan text with
            | none => simp [List.findSome?_cons, h1, h2, h3, h3p, h4]
            | some c4 =>
              cases h4p : tryParse c4 with
              | none => simp [List.findSome?_cons, h1, h2, h3, h3p, h4, h4p]
              | some d => simp [List.findSome?_cons, h1, h2, h3, h3p, h4, h4p]
          | some d => simp [List.findSome?_cons, h1, h2, h3, h3p]
      | some inner =>
        by_cases hin : inner.isEmpty = true
        · cases h3 : braceSpan text with
          | none =>
            cases h4 : bracketSpan text with
            | none => simp [List.findSome?_cons, h1, h2, hin, h3, h4]
            | some c4 =>
              cases h4p : tryParse c4 with
              | none => simp [List.findSome?_cons, h1, h2, hin, h3, h4, h4p]
              | some d => simp [List.findSome?_cons, h1, h2, hin, h3, h4, h4p]
          | some c3 =>
            cases h3p : tryParse c3 with
            | none =>
              cases h4 : bracketSpan text with
              | none => simp [List.findSome?_cons, h1, h2, hin, h3, h3p, h4]
              | some c4 =>
                cases h4p : tryParse c4 with
                | none => simp [List.findSome?_cons, h1, h2, hin, h3, h3p, h4, h4p]
                | some d => simp [List.findSome?_cons, h1, h2, hin, h3, h3p, h4, h4p]
            | some d => simp [List.findSome?_cons, h1, h2, hin, h3, h3p]
        · have hin' : inner.isEmpty = false := by
            cases hb : inner.isEmpty
            · rfl
            · exact absurd hb hin
          cases h2p : tryParse (trimChars inner) with
          | some d => simp [List.findSome?_cons, h1, h2, hin', h2p]
          | none =>
            cases h3 : braceSpan text with
            | none =>
              cases h4 : bracketSpan text with
              | none => simp [List.findSome?_cons, h1, h2, hin', h2p, h3, h4]
              | some c4 =>
                cases h4p : tryParse c4 with
                | none => simp [List.findSome?_cons, h1, h2, hin', h2p, h3, h4, h4p]
                | some d => simp [List.findSome?_cons, h1, h2, hin', h2p, h3, h4, h4p]
            | some c3 =>
              cases h3p : tryParse c3 with
              | none =>
                cases h4 : bracketSpan text with
                | none => simp [List.findSome?_cons, h1, h2, hin', h2p, h3, h3p, h4]
                | some c4 =>
                  cases h4p : tryParse c4 with
                  | none => simp [List.findSome?_cons, h1, h2, hin', h2p, h3, h3p, h4, h4p]
                  | some d => simp [List.findSome?_cons, h1, h2, hin', h2p, h3, h3p, h4, h4p]
              | some d => simp [List.findSome?_cons, h1, h2, hin', h2p, h3, h3p]

/-- Claim C3, counterexample: a model summary carrying the out-of-range
likelihood 1.5 passes the Output Parser's shape validation unchanged and is
copied verbatim into the upload response by `buildSuccessResponse` — the
surfaced value is 3/2, outside [0,1]: the upload-analysis parse path
performs no clamping. -/
theorem upload_path_surfaces_unclamped_likelihood :
    summaryLikelihoodOf (buildSuccessResponse overTxt (parseAIDetectionOutput overTxt)).parsed
      = some (mkRat 3 2)
    ∧ ¬ ((mkRat 3 2 : ℚ) ≤ 1) := by
  decide

/-- Claim C3, amended: likelihoods are clamped into [0,1] only on the
recording-analysis path (`Math.max(0, Math.min(1, ...))` in
`recordingFromJson`, which also never rejects); the upload-analysis parse
path surfaces whatever numeric value the model returned (1.5 stays 1.5 and
no error is raised — out-of-range values are not rejected there either,
just not clamped). -/
theorem likelihood_clamped_on_recording_path_only :
    (∀ j : Json, 0 ≤ (recordingFromJson j).aiGeneratedLikelihood
      ∧ (recordingFromJson j).aiGeneratedLikelihood ≤ 1)
    ∧ summaryLikelihoodOf (parseAIDetectionOutput overTxt).data = some (mkRat 3 2)
    ∧ (parseAIDetectionOutput overTxt).error = none := by
  refine ⟨?_, by decide, by decide⟩
  intro j
  unfold recordingFromJson clampLikelihood
  exact ⟨le_max_left _ _, max_le (by norm_num) (min_le_left _ _)⟩

/-- Claim C4, counterexample: on the exact input of the claim — prose
followed by a json fence holding the camelCase field set — the parser
returns a ParseError (data null, error present), not the parsed summary:
`isSummary` validates `ai_generated_likelihood` and `label`, which the
camelCase payload lacks. -/
theorem camel_case_payload_parse_error :
    (parseAIDetectionOutput c4Camel).data.isNone = true
    ∧ (parseAIDetectionOutput c4Camel).error.isSome = true := by
  decide

/-- Claim C4, amended: the same prose-with-fence input is parsed to a
summary with likelihood 0.42 once the payload carries the snake_case field
set with `label` that the code's `isSummary` actually validates; the
claim's camelCase payload yields a ParseError instead. -/
theorem snake_case_payload_parsed :
    summaryLikelihoodOf (parseAIDetectionOutput c4Snake).data = some (mkRat 21 50)
    ∧ (parseAIDetectionOutput c4Snake).error = none := by
  decide

/-- Claim C5, counterexample: the single-request client of part_015, given
one path whose file is missing, fails with a per-file `Frame file does not
exist` error — not with the no-frames error — though still with zero
network requests. -/
theorem missing_file_error_not_no_frames :
    analyzeFrameWithOpenAI [] ["frame-001.jpg"] [] =
      (Except.error (FrameClientError.frameFileMissing "frame-001.jpg"), 0)
    ∧ FrameClientError.frameFileMissing "frame-001.jpg" ≠ FrameClientError.noFramePaths := by
  exact ⟨rfl, by decide⟩

/-- Claim C5, amended: with zero valid frame paths (empty list, or every
file missing or empty) both analysis clients fail without issuing any
network request; the error is the dedicated no-frames error for an empty
list (part_015) and for an all-invalid list in part_009 (which filters
first), while part_015 reports a per-file missing/empty-file error for an
invalid non-empty list. -/
theorem zero_valid_frames_fail_without_network (fsys : FileSys) (paths : List String)
    (t : List Char) (api : Except (List Char) (List Char))
    (h : paths.all (fun p => !(fileExists fsys p && !(fileSize fsys p == 0))) = true) :
    ((analyzeFrameWithOpenAI fsys paths t).2 = 0
      ∧ exceptIsOk (analyzeFrameWithOpenAI fsys paths t).1 = false)
    ∧ ((analyzeFramesWithOpenAI009 fsys paths api).2.1 = 0
      ∧ exceptIsOk (analyzeFramesWithOpenAI009 fsys paths api).1 = false)
    ∧ (paths = [] →
        (analyzeFrameWithOpenAI fsys paths t).1 = Except.error FrameClientError.noFramePaths) := by
  have hfilter : paths.filter (fun p => fileExists fsys p && !(fileSize fsys p == 0)) = [] := by
    rw [List.filter_eq_nil_iff]
    intro a ha
    have hx := (List.all_eq_true.mp h) a ha
    simp only [Bool.not_eq_true'] at hx
    simp [hx]
  refine ⟨?_, ?_, ?_⟩
  · cases hp : paths with
    | nil => exact ⟨rfl, rfl⟩
    | cons p rest =>
      have hv := (List.all_eq_true.mp h) p (by rw [hp]; exact List.mem_cons_self p rest)
      cases hfe : fileExists fsys p with
      | false =>
        simp [analyzeFrameWithOpenAI, hp, validateFrames015, hfe, exceptIsOk]
      | true =>
        have hsz : (fileSize fsys p == 0) = true := by
          rw [hfe] at hv
          simpa using hv
        simp [analyzeFrameWithOpenAI, hp, validateFrames015, hfe, hsz, exceptIsOk]
  · constructor <;> simp [analyzeFramesWithOpenAI009, hfilter, exceptIsOk]
  · intro hp
    subst hp
    rfl

/-- Claim C5, witness for the amended theorem: one empty file plus one
missing file — both clients fail and make zero network calls. -/
theorem zero_valid_frames_fail_without_network_witness :
    (((analyzeFrameWithOpenAI [("empty.jpg", 0)] ["empty.jpg", "gone.jpg"] []).2 = 0
      ∧ exceptIsOk (analyzeFrameWithOpenAI [("empty.jpg", 0)] ["empty.jpg", "gone.jpg"] []).1 = false)
    ∧ ((analyzeFramesWithOpenAI009 [("empty.jpg", 0)] ["empty.jpg", "gone.jpg"] (Except.ok [])).2.1 = 0
      ∧ exceptIsOk (analyzeFramesWithOpenAI009 [("empty.jpg", 0)] ["empty.jpg", "gone.jpg"] (Except.ok [])).1 = false)
    ∧ (["empty.jpg", "gone.jpg"] = ([] : List String) →
        (analyzeFrameWithOpenAI [("empty.jpg", 0)] ["empty.jpg", "gone.jpg"] []).1
          = Except.error FrameClientError.noFramePaths)) :=
  zero_valid_frames_fail_without_network [("empty.jpg", 0)] ["empty.jpg", "gone.jpg"] []
    (Except.ok []) (by decide)

/-- Claim C6, counterexample: in the part_003 revision the selection is
random, not the first K — with 7 frames and random draws ranking the first
frame last, the transmitted frames are f2..f7 rather than the first six in
temporal order. -/
theorem random_selection_not_first_six :
    selectRandomFrames003 ["f1", "f2", "f3", "f4", "f5", "f6", "f7"]
      [mkRat 1 1, 0, 0, 0, 0, 0, 0]
      ≠ (["f1", "f2", "f3", "f4", "f5", "f6", "f7"]).take 6 := by
  decide

/-- Claim C6, amended: both revisions cap the transmitted frames (3 and 6)
and combine the selection into exactly one request per analysis call; the
selection is the deterministic first 3 in temporal order in the recording
controller, but a random 6 (all frames when at most 6) in the part_003
revision. -/
theorem frame_cap_one_request (frames : List String) (keys : List ℚ) (api : ChatOutcome) :
    ((analyzeFramesWithOpenAIRec frames api).framesSent = frames.take 3
      ∧ (analyzeFramesWithOpenAIRec frames api).framesSent.length ≤ 3
      ∧ (analyzeFramesWithOpenAIRec frames api).requests = 1)
    ∧ ((analyzeFramesWithOpenAI003 frames keys).1.length ≤ 6
      ∧ (analyzeFramesWithOpenAI003 frames keys).2 = 1
      ∧ ∀ f ∈ (analyzeFramesWithOpenAI003 frames keys).1, f ∈ frames) := by
  have hsent : (analyzeFramesWithOpenAIRec frames api).framesSent = frames.take 3 := by
    cases api with
    | apiThrow => rfl
    | noContent => rfl
    | content text =>
      simp only [analyzeFramesWithOpenAIRec]
      cases jsonParse (cleanRecordingText text) <;> rfl
  have hreq : (analyzeFramesWithOpenAIRec frames api).requests = 1 := by
    cases api with
    | apiThrow => rfl
    | noContent => rfl
    | content text =>
      simp only [analyzeFramesWithOpenAIRec]
      cases jsonParse (cleanRecordingText text) <;> rfl
  refine ⟨⟨hsent, ?_, hreq⟩, ⟨?_, rfl, ?_⟩⟩
  · rw [hsent]
    simp
  · simp only [analyzeFramesWithOpenAI003, selectRandomFrames003]
    split
    · omega
    · rw [List.length_map]
      exact List.length_take_le _ _
  · intro f hf
    simp only [analyzeFramesWithOpenAI003, selectRandomFrames003] at hf
    split at hf
    · exact hf
    · obtain ⟨pr, hpr, hfe⟩ := List.mem_map.mp hf
      have hpr1 : pr ∈ sortByLt ratKeyLt (frames.zip keys) := List.take_subset 6 _ hpr
      have hpr2 : pr ∈ frames.zip keys := (mem_sortByLt _ _ _).mp hpr1
      obtain ⟨a, b⟩ := pr
      subst hfe
      exact (List.of_mem_zip hpr2).1

/-- Claim C7, counterexample: the part_016 extractor returns a zero-byte
frame file — the re-read listing is filtered by filename pattern only, so
"keeps only files that exist and are non-empty" fails: no size filter runs
in the Media Extractor. -/
theorem extractor_keeps_empty_file :
    extractFramesEnum016 [("frame-00001.jpg", 0)] = ["frame-00001.jpg"]
    ∧ fileSize [("frame-00001.jpg", 0)] "frame-00001.jpg" = 0 := by
  decide

/-- Claim C7, amended: after successful extraction both revisions re-read
the directory listing from disk; part_009 filters by the frame-name pattern
and existence and returns the names sorted by the embedded numeric index,
part_016 filters by name pattern only and sorts lexicographically; neither
filters out empty (zero-byte) files — that size filter happens later in the
Analysis Client. -/
theorem extractor_rereads_and_sorts (listing : FileSys) (created : List String)
    (n : Nat) (h : framesFromDisk009 listing ≠ []) :
    (∀ f ∈ extractMultipleFramesEnum listing created n, fileExists listing f = true)
    ∧ extractMultipleFramesEnum listing created n
        = (framesFromDisk009 listing).filter (fun p => fileExists listing p)
    ∧ List.Pairwise (fun a b => parseIdx a ≤ parseIdx b)
        (extractMultipleFramesEnum listing created n)
    ∧ (∀ f ∈ extractFramesEnum016 listing, f ∈ listing.map Prod.fst) := by
  have hB : (framesFromDisk009 listing).isEmpty = false := by
    cases hl : framesFromDisk009 listing with
    | nil => exact absurd hl h
    | cons a l => rfl
  have heq : extractMultipleFramesEnum listing created n
      = (framesFromDisk009 listing).filter (fun p => fileExists listing p) := by
    simp [extractMultipleFramesEnum, hB]
  refine ⟨?_, heq, ?_, ?_⟩
  · intro f hf
    rw [heq] at hf
    exact (List.mem_filter.mp hf).2
  · rw [heq]
    exact List.Pairwise.sublist (List.filter_sublist _) (pairwise_sortByLt_idx _)
  · intro f hf
    have hmem := (mem_sortByLt _ _ _).mp hf
    exact List.mem_of_mem_filter hmem

/-- Claim C7, witness for the amended theorem: a listing with numerically
(not lexicographically) ordered frame names plus a stray metadata file. -/
theorem extractor_rereads_and_sorts_witness :
    framesFromDisk009 [("frame-2.jpg", 5), ("frame-10.jpg", 7), ("meta.json", 3)] ≠ []
    ∧ extractMultipleFramesEnum
        [("frame-2.jpg", 5), ("frame-10.jpg", 7), ("meta.json", 3)] [] 0
        = ["frame-2.jpg", "frame-10.jpg"] :=
  ⟨by decide,
    by
      have := extractor_rereads_and_sorts
        [("frame-2.jpg", 5), ("frame-10.jpg", 7), ("meta.json", 3)] [] 0 (by decide)
      rw [this.2.1]
      decide⟩

/-- Claim C8, counterexample: when the frame-extraction subprocess throws,
`extractAndAnalyze` propagates the exception before entering its `try`, so
the `finally` cleanup step is never reached and the frames directory
created ahead of the subprocess remains on disk. -/
theorem extraction_failure_skips_cleanup :
    (uploadVideo true true envExtractFail []).cleanupRan = false
    ∧ framesFolder ∈ (uploadVideo true true envExtractFail []).fs := by
  decide

/-- Claim C8, amended: an upload whose extraction subprocess fails is
reported as failed (HTTP 500 from the controller catch, not the 502 of
analysis failures) and the Analysis Client is never invoked — but the
cleanup step is NOT reached: the extraction call lies outside the
try/finally, so the frames directory leaks. -/
theorem extraction_failure_fails_without_analysis (env : PipelineEnv) (fs0 : TempFS)
    (e : List Char) (h : env.framesOutcome = Except.error e) :
    (uploadVideo true true env fs0).status = 500
    ∧ (uploadVideo true true env fs0).aiCalls = 0
    ∧ (uploadVideo true true env fs0).cleanupRan = false
    ∧ framesFolder ∈ (uploadVideo true true env fs0).fs := by
  refine ⟨?_, ?_, ?_, ?_⟩ <;> simp [uploadVideo, extractAndAnalyze, h]

/-- Claim C8, witness for the amended theorem at the concrete failing
environment. -/
theorem extraction_failure_fails_without_analysis_witness :
    (uploadVideo true true envExtractFail []).status = 500
    ∧ (uploadVideo true true envExtractFail []).aiCalls = 0
    ∧ (uploadVideo true true envExtractFail []).cleanupRan = false
    ∧ framesFolder ∈ (uploadVideo true true envExtractFail []).fs :=
  extraction_failure_fails_without_analysis envExtractFail []
    (("ffmpeg exited with code 1").toList) rfl

/-- Claim C9, counterexample: with identical pipeline outcomes, a request
whose status broadcast throws answers 500 while one whose broadcasts
succeed answers 200 — an exception inside the Progress Broadcaster DOES
change the main request's HTTP response, because `broadcastAnalysisStatus`
performs unguarded synchronous sends inside the controller's `try`. -/
theorem broadcast_throw_changes_response :
    (uploadVideoWs true true [false] envOkPipeline []).status = 500
    ∧ (uploadVideoWs true true [true] envOkPipeline []).status = 200 := by
  decide

/-- Claim C9, amended: exceptions inside the frame-streaming trigger are
contained (async fire-and-forget) and when no broadcast send throws the
broadcasting controller behaves exactly like the broadcast-free one; but a
throwing send in the synchronous status fan-out propagates into the
Orchestrator and turns the response into a 500 before the Analysis Client
is ever invoked. -/
theorem broadcaster_exception_policy (sends : List Bool) (env : PipelineEnv)
    (fs0 : TempFS) :
    (sends.all (fun b => b) = true →
      uploadVideoWs true true sends env fs0 = uploadVideo true true env fs0)
    ∧ (sends.all (fun b => b) = false →
      (uploadVideoWs true true sends env fs0).status = 500
      ∧ (uploadVideoWs true true sends env fs0).aiCalls = 0) := by
  constructor
  · intro h
    cases hfr : env.framesOutcome with
    | error e =>
      simp [uploadVideoWs, uploadVideo, broadcastAnalysisStatus, h, extractAndAnalyze, hfr]
    | ok frames =>
      cases hau : env.audioOutcome with
      | error e =>
        simp [uploadVideoWs, uploadVideo, broadcastAnalysisStatus, h, extractAndAnalyze,
          hfr, hau]
      | ok ap =>
        cases han : env.analysisOutcome with
        | ok analysis =>
          simp [uploadVideoWs, uploadVideo, broadcastAnalysisStatus, h, extractAndAnalyze,
            hfr, hau, han]
        | error e =>
          simp [uploadVideoWs, uploadVideo, broadcastAnalysisStatus, h, extractAndAnalyze,
            hfr, hau, han]
  · intro h
    constructor <;> simp [uploadVideoWs, broadcastAnalysisStatus, h]

/-- Claim C9, witness for the amended theorem: both implications discharged
at concrete send lists over the all-success pipeline. -/
theorem broadcaster_exception_policy_witness :
    uploadVideoWs true true [true] envOkPipeline [] = uploadVideo true true envOkPipeline []
    ∧ (uploadVideoWs true true [false] envOkPipeline []).status = 500
    ∧ (uploadVideoWs true true [false] envOkPipeline []).aiCalls = 0 :=
  ⟨(broadcaster_exception_policy [true] envOkPipeline []).1 (by decide),
    (broadcaster_exception_policy [false] envOkPipeline []).2 (by decide)⟩

/-- Claim C10: for a non-empty frames array the recording endpoint's
analysis step is total — an API throw, a missing response and an
unparseable response all substitute a fallback whose likelihood is 0, and
the endpoint still answers HTTP 200 with `success: true`; a model failure
never produces a 5xx here. -/
theorem recording_endpoint_total_on_model_failure (frames : List String)
    (api : ChatOutcome) (h : frames ≠ []) :
    (handleRecording frames api).status = 200
    ∧ (handleRecording frames api).success = true
    ∧ recordingApiFallback.aiGeneratedLikelihood = 0
    ∧ (∀ text, (recordingParseFallback text).aiGeneratedLikelihood = 0)
    ∧ (api = ChatOutcome.apiThrow ∨ api = ChatOutcome.noContent →
        (handleRecording frames api).analysis = some recordingApiFallback)
    ∧ (∀ text, api = ChatOutcome.content text →
        jsonParse (cleanRecordingText text) = none →
        (handleRecording frames api).analysis = some (recordingParseFallback text)) := by
  have hB : frames.isEmpty = false := by
    cases frames with
    | nil => exact absurd rfl h
    | cons a l => rfl
  refine ⟨?_, ?_, rfl, fun text => rfl, ?_, ?_⟩
  · simp [handleRecording, hB]
  · simp [handleRecording, hB]
  · rintro (rfl | rfl) <;> simp [handleRecording, hB, analyzeFramesWithOpenAIRec]
  · intro text hApi hp
    subst hApi
    simp [handleRecording, hB, analyzeFramesWithOpenAIRec, hp]

/-- Claim C10, witness: one frame, the API call throws — the endpoint still
answers 200/success with the zero-likelihood fallback. -/
theorem recording_endpoint_total_on_model_failure_witness :
    (handleRecording ["frame-a"] ChatOutcome.apiThrow).status = 200
    ∧ (handleRecording ["frame-a"] ChatOutcome.apiThrow).success = true
    ∧ recordingApiFallback.aiGeneratedLikelihood = 0
    ∧ (∀ text, (recordingParseFallback text).aiGeneratedLikelihood = 0)
    ∧ (ChatOutcome.apiThrow = ChatOutcome.apiThrow ∨ ChatOutcome.apiThrow = ChatOutcome.noContent →
        (handleRecording ["frame-a"] ChatOutcome.apiThrow).analysis = some recordingApiFallback)
    ∧ (∀ text, ChatOutcome.apiThrow = ChatOutcome.content text →
        jsonParse (cleanRecordingText text) = none →
        (handleRecording ["frame-a"] ChatOutcome.apiThrow).analysis
          = some (recordingParseFallback text)) :=
  recording_endpoint_total_on_model_failure ["frame-a"] ChatOutcome.apiThrow (by decide)
